import Mathlib

/-!
Verification of the SpaceLink Enterprise Gateway core: a shallow embedding
of the authorization helpers (`app/auth.py`), the telemetry ingestion
endpoints (`app/routers/telemetry.py`) and the network health / SLA
endpoints (`app/routers/networks.py`), with theorems settling the frozen
claims about them.

Modelling conventions:
* Python floats are modelled as `ℚ` (every computation in the scored
  endpoints is exact decimal arithmetic: sums, divisions, `min`, `max`,
  comparisons and 2-decimal rounding).
* SQL `NULL` / Python `None` become `Option`.
* Python float truthiness (`if x:` is false for `None` and for `0.0`)
  is modelled explicitly by `pyTruthy`.
* Timestamps are modelled as integers; only their ordering matters to the
  windowing filters.
* Only the record fields read or written by the verified endpoints are
  modelled; unused columns (location, throughput, jitter, firmware, ...)
  are omitted.
-/

namespace SpaceLink

/-- A telemetry reading (`models.Telemetry` ORM row / `TelemetryCreate`
payload), restricted to the fields the verified endpoints touch. -/
structure Telemetry where
  device_id : String
  organization : String
  timestamp : Int
  latency_ms : Option ℚ
  packet_loss_percent : Option ℚ
  status : String
deriving DecidableEq

/-- A network configuration row (`models.Network`), restricted to the
fields the verified endpoints touch. -/
structure Network where
  network_id : String
  organization : String
  status : String
  health_score : ℚ
  sla_uptime_target : ℚ
  sla_latency_target : ℚ
deriving DecidableEq

/-- `auth.User`: a bearer-token principal. -/
structure User where
  username : String
  email : String
  role : String
  organization : String
  disabled : Bool
deriving DecidableEq

/-- `auth.APIKeyData`: a device API key (timestamps omitted). -/
structure APIKeyData where
  key_id : String
  device_id : String
  organization : String
  active : Bool
deriving DecidableEq

/-- The error taxonomy surfaced by the embedded endpoints
(HTTP 401 / 403 / 404). -/
inductive ApiError where
  | unauthenticated : ApiError
  | forbidden : ApiError
  | notFound : ApiError
deriving DecidableEq

/-- Python float truthiness on an optional value: `None` and `0.0` are
falsy, every other float is truthy.  `pyTruthy o = some v` exactly when
`o` holds a nonzero value `v`. -/
def pyTruthy (o : Option ℚ) : Option ℚ :=
  match o with
  | none => none
  | some v => if v = 0 then none else some v

/-- Python `round(x, 2)` / SQL 2-decimal rounding, on rationals
(round half away from zero is irrelevant here: no claim touches a half
case, so floor of `x*100 + 1/2` is used). -/
def round2 (q : ℚ) : ℚ := ((⌊q * 100 + 1/2⌋ : ℤ) : ℚ) / 100

/-- Arithmetic mean of a list of values, `none` when the list is empty:
the behaviour of SQL `avg` over the non-`NULL` entries of a column, and of
`sum(xs)/len(xs) if xs else None`. -/
def avgOpt (l : List ℚ) : Option ℚ :=
  if l.isEmpty then none else some (l.sum / (l.length : ℚ))

-- ===========================================================================
-- auth.py
-- ===========================================================================

/-- `auth.check_organization_access`: admins have global access, everyone
else only their own organization. -/
def check_organization_access (user : User) (resource_organization : String) : Bool :=
  if user.role == "admin" then true
  else user.organization == resource_organization

-- ===========================================================================
-- routers/networks.py — get_network
-- ===========================================================================

/-- `networks.get_network` after authentication: 404 when no network has
the id, 403 when a non-admin requests a network of another organization. -/
def get_network (nets : List Network) (user : User) (network_id : String) :
    Except ApiError Network :=
  match nets.find? (fun n => n.network_id == network_id) with
  | none => .error .notFound
  | some n =>
    if user.role != "admin" && n.organization != user.organization then
      .error .forbidden
    else .ok n

-- ===========================================================================
-- routers/networks.py — get_network_health
-- ===========================================================================

/-- The telemetry rows aggregated by `get_network_health`: filtered by the
network's owning organization and by `timestamp >= start_time`.  (The
filter does not mention the network id or a device id.) -/
def telemetryWindow (allR : List Telemetry) (org : String) (startTime : Int) :
    List Telemetry :=
  allR.filter (fun r => r.organization == org && decide (startTime ≤ r.timestamp))

/-- `func.avg(Telemetry.latency_ms)` over the window: mean of the
non-`NULL` latencies, `NULL` when there are none. -/
def avgLatencyOf (telem : List Telemetry) : Option ℚ :=
  avgOpt (telem.filterMap (fun r => r.latency_ms))

/-- `func.avg(Telemetry.packet_loss_percent)` over the window. -/
def avgPacketLossOf (telem : List Telemetry) : Option ℚ :=
  avgOpt (telem.filterMap (fun r => r.packet_loss_percent))

/-- `uptime_percent = (active_readings / total_readings * 100) if
total_readings > 0 else 0`. -/
def uptimePercentOf (telem : List Telemetry) : ℚ :=
  if 0 < telem.length then
    ((telem.filter (fun r => r.status == "active")).length : ℚ) /
      (telem.length : ℚ) * 100
  else 0

/-- `if telemetry_stats.avg_latency:` then `if avg_latency > target:`
deduct `min(30, (avg_latency - latency_target) / 10)`. -/
def latencyDeduction (latency_target : ℚ) (avgLat : Option ℚ) : ℚ :=
  match pyTruthy avgLat with
  | none => 0
  | some l => if latency_target < l then min 30 ((l - latency_target) / 10) else 0

/-- `if telemetry_stats.avg_packet_loss:` deduct
`min(30, avg_packet_loss * 3)` (no threshold guard). -/
def packetLossDeduction (avgPL : Option ℚ) : ℚ :=
  match pyTruthy avgPL with
  | none => 0
  | some p => min 30 (p * 3)

/-- `if uptime_percent < sla_uptime_target:` deduct
`min(40, (sla_uptime_target - uptime_percent) * 2)`. -/
def uptimeDeduction (uptime_target uptime_percent : ℚ) : ℚ :=
  if uptime_percent < uptime_target then
    min 40 ((uptime_target - uptime_percent) * 2)
  else 0

/-- `health_score = max(0, 100 - deductions)`: the sequential
`health_score -= ...` steps of `get_network_health` followed by the lower
clamp.  (The code has no explicit upper clamp.) -/
def rawHealthScore (latency_target uptime_target : ℚ)
    (avgLat avgPL : Option ℚ) (uptime_percent : ℚ) : ℚ :=
  max 0 (100 - latencyDeduction latency_target avgLat
    - packetLossDeduction avgPL
    - uptimeDeduction uptime_target uptime_percent)

/-- The `NetworkHealth` response model (`last_updated` wall-clock field
omitted). -/
structure HealthSnapshot where
  network_id : String
  organization : String
  health_score : ℚ
  status : String
  avg_latency_ms : Option ℚ
  avg_packet_loss_percent : Option ℚ
  uptime_percent : ℚ
deriving DecidableEq

/-- The `NetworkHealth` body built by `get_network_health`: averages and
uptime over the organization-filtered window, the clamped score, and the
Python-truthiness-guarded reporting of the two averages. -/
def healthSnapshotOf (net : Network) (allR : List Telemetry) (startTime : Int) :
    HealthSnapshot :=
  { network_id := net.network_id
    organization := net.organization
    health_score := round2 (rawHealthScore net.sla_latency_target net.sla_uptime_target
      (avgLatencyOf (telemetryWindow allR net.organization startTime))
      (avgPacketLossOf (telemetryWindow allR net.organization startTime))
      (uptimePercentOf (telemetryWindow allR net.organization startTime)))
    status := net.status
    avg_latency_ms :=
      (pyTruthy (avgLatencyOf (telemetryWindow allR net.organization startTime))).map round2
    avg_packet_loss_percent :=
      (pyTruthy (avgPacketLossOf (telemetryWindow allR net.organization startTime))).map round2
    uptime_percent := round2 (uptimePercentOf (telemetryWindow allR net.organization startTime)) }

/-- `networks.get_network_health` after the 404/403 guards: returns the
network with its stored `health_score` overwritten (the endpoint's side
effect) together with the `NetworkHealth` response. -/
def get_network_health (net : Network) (allR : List Telemetry) (startTime : Int) :
    Network × HealthSnapshot :=
  ({ net with health_score := (healthSnapshotOf net allR startTime).health_score },
   healthSnapshotOf net allR startTime)

-- ===========================================================================
-- routers/networks.py — get_network_sla_report
-- ===========================================================================

/-- The SLA report body (period timestamps omitted; `total_readings`,
targets, actual performance, per-metric compliance and overall status). -/
structure SlaReport where
  network_id : String
  organization : String
  total_readings : Nat
  uptime_target : ℚ
  latency_target_ms : ℚ
  uptime_percent : ℚ
  avg_latency_ms : Option ℚ
  uptime_compliance : Bool
  latency_compliance : Option Bool
  status : String
deriving DecidableEq

/-- The two possible response shapes of `get_network_sla_report`: the
zero-reading message, or a full report. -/
inductive SlaResult where
  | noData (network_id : String) : SlaResult
  | report (r : SlaReport) : SlaResult
deriving DecidableEq

/-- The telemetry rows aggregated by `get_network_sla_report`: filtered by
the network's owning organization and `start_date <= timestamp <= end_date`. -/
def slaWindow (allR : List Telemetry) (org : String) (startDate endDate : Int) :
    List Telemetry :=
  allR.filter (fun r =>
    r.organization == org && decide (startDate ≤ r.timestamp) &&
      decide (r.timestamp ≤ endDate))

/-- `networks.get_network_sla_report` after the 404/403 guards.
`latency_compliance` is `avg_latency <= target if avg_latency else None`
(Python float truthiness), and the overall status is
`"COMPLIANT" if all(sla_compliance.values()) else "NON_COMPLIANT"`, where
Python's `all` treats `None` and `False` alike as failing. -/
def get_network_sla_report (net : Network) (allR : List Telemetry)
    (startDate endDate : Int) : SlaResult :=
  let data := slaWindow allR net.organization startDate endDate
  if data.length = 0 then .noData net.network_id
  else
    let uptime : ℚ :=
      ((data.filter (fun r => r.status == "active")).length : ℚ) /
        (data.length : ℚ) * 100
    let avgLat : Option ℚ := avgOpt (data.filterMap (fun r => r.latency_ms))
    let upComp : Bool := decide (net.sla_uptime_target ≤ uptime)
    let latComp : Option Bool :=
      (pyTruthy avgLat).map (fun l => decide (l ≤ net.sla_latency_target))
    .report
      { network_id := net.network_id
        organization := net.organization
        total_readings := data.length
        uptime_target := net.sla_uptime_target
        latency_target_ms := net.sla_latency_target
        uptime_percent := round2 uptime
        avg_latency_ms := (pyTruthy avgLat).map round2
        uptime_compliance := upComp
        latency_compliance := latComp
        status := if upComp && latComp.getD false then "COMPLIANT" else "NON_COMPLIANT" }

-- ===========================================================================
-- routers/telemetry.py — send_telemetry / send_telemetry_batch
-- ===========================================================================

/-- `telemetry.send_telemetry` after API-key authentication, acting on the
stored list of readings: a device-id mismatch is a 403 and stores nothing;
otherwise the payload's organization is overwritten with the key's
organization and the record is appended.  Returns the store after the call
and the outcome. -/
def send_telemetry (store : List Telemetry) (key : APIKeyData) (t : Telemetry) :
    List Telemetry × Except ApiError Telemetry :=
  if t.device_id ≠ key.device_id then (store, .error .forbidden)
  else
    let t' := { t with organization := key.organization }
    (store ++ [t'], .ok t')

/-- `telemetry.send_telemetry_batch` after API-key authentication: each
record is checked independently, mismatched device ids are skipped
(`continue`), matching records get the key's organization and are stored.
Returns (store after commit, `records_submitted`, `records_created`). -/
def send_telemetry_batch (store : List Telemetry) (key : APIKeyData)
    (batch : List Telemetry) : List Telemetry × Nat × Nat :=
  let result := batch.foldl
    (fun acc t =>
      if t.device_id ≠ key.device_id then acc
      else (acc.1 ++ [{ t with organization := key.organization }], acc.2 + 1))
    (store, 0)
  (result.1, batch.length, result.2)

-- ===========================================================================
-- Helper lemmas
-- ===========================================================================

lemma round2_nonneg {q : ℚ} (h : 0 ≤ q) : 0 ≤ round2 q := by
  unfold round2
  have h1 : (0:ℤ) ≤ ⌊q * 100 + 1/2⌋ := Int.floor_nonneg.mpr (by positivity)
  positivity

lemma round2_le_hundred {q : ℚ} (h : q ≤ 100) : round2 q ≤ 100 := by
  unfold round2
  have h1 : ⌊q * 100 + 1/2⌋ < 10001 := by
    rw [Int.floor_lt]
    push_cast
    linarith
  have h2 : ((⌊q * 100 + 1/2⌋ : ℤ) : ℚ) ≤ 10000 := by
    exact_mod_cast Int.lt_add_one_iff.mp h1
  linarith

lemma avgOpt_nonneg {l : List ℚ} (h : ∀ v ∈ l, 0 ≤ v) {q : ℚ}
    (hq : avgOpt l = some q) : 0 ≤ q := by
  unfold avgOpt at hq
  split at hq
  · exact absurd hq (by simp)
  · have hsum : 0 ≤ l.sum := List.sum_nonneg h
    have hlen : (0:ℚ) ≤ (l.length : ℚ) := by positivity
    obtain rfl : l.sum / (l.length : ℚ) = q := by injection hq
    positivity

lemma latencyDeduction_nonneg (tgt : ℚ) (a : Option ℚ) :
    0 ≤ latencyDeduction tgt a := by
  unfold latencyDeduction
  split
  · exact le_refl 0
  · split
    · exact le_min (by norm_num) (by linarith)
    · exact le_refl 0

lemma pyTruthy_eq_some {a : Option ℚ} {v : ℚ} (h : pyTruthy a = some v) :
    a = some v := by
  unfold pyTruthy at h
  split at h
  · exact absurd h (by simp)
  · split at h
    · exact absurd h (by simp)
    · injection h with h1
      rw [h1]

lemma packetLossDeduction_nonneg {a : Option ℚ}
    (h : ∀ p, a = some p → 0 ≤ p) : 0 ≤ packetLossDeduction a := by
  unfold packetLossDeduction
  split
  · exact le_refl 0
  case h_2 p heq =>
    have hp : 0 ≤ p := h p (pyTruthy_eq_some heq)
    exact le_min (by norm_num) (by linarith)

lemma uptimeDeduction_nonneg (tgt u : ℚ) : 0 ≤ uptimeDeduction tgt u := by
  unfold uptimeDeduction
  split
  · exact le_min (by norm_num) (by linarith)
  · exact le_refl 0

lemma rawHealthScore_bounds (lt ut : ℚ) (aL aP : Option ℚ) (u : ℚ)
    (hP : 0 ≤ packetLossDeduction aP) :
    0 ≤ rawHealthScore lt ut aL aP u ∧ rawHealthScore lt ut aL aP u ≤ 100 := by
  unfold rawHealthScore
  constructor
  · exact le_max_left 0 _
  · have h1 := latencyDeduction_nonneg lt aL
    have h3 := uptimeDeduction_nonneg ut u
    exact max_le (by norm_num) (by linarith)

lemma send_telemetry_batch_loop (key : APIKeyData) (batch : List Telemetry) :
    ∀ acc : List Telemetry × Nat,
      batch.foldl
        (fun acc t =>
          if t.device_id ≠ key.device_id then acc
          else (acc.1 ++ [{ t with organization := key.organization }], acc.2 + 1))
        acc =
      (acc.1 ++ (batch.filter (fun t => t.device_id == key.device_id)).map
          (fun t => { t with organization := key.organization }),
        acc.2 + (batch.filter (fun t => t.device_id == key.device_id)).length) := by
  induction batch with
  | nil => intro acc; simp
  | cons t ts ih =>
    intro acc
    simp only [List.foldl_cons]
    by_cases h : t.device_id = key.device_id
    · rw [if_neg (by simp [h]), ih]
      simp only [List.filter_cons, h, beq_self_eq_true, if_true, List.map_cons,
        List.length_cons, Prod.mk.injEq]
      constructor
      · simp [List.append_assoc]
      · omega
    · rw [if_pos h, ih]
      simp [List.filter_cons, h]

-- ===========================================================================
-- Concrete fixtures used by the claim theorems
-- ===========================================================================

/-- Fixture network with the spec's default SLA targets (uptime 99.9%,
latency 100ms). -/
def c1Net : Network :=
  { network_id := "net1", organization := "OrgA", status := "active",
    health_score := 100, sla_uptime_target := 999/10, sla_latency_target := 100 }

-- ===========================================================================
-- Claim theorems
-- ===========================================================================

/-- Claim C1, counterexample: on a window with zero telemetry readings the
health endpoint does NOT report a zero-reading state: it treats uptime as
0%, applies the uptime deduction (min 40 of 99.9*2) and returns the
computed score 60.0 with a defined uptime_percent of 0 — not an undefined
uptime and not a zero-reading report. -/
theorem c1_counterexample :
    (get_network_health c1Net [] 0).2 =
      { network_id := "net1", organization := "OrgA", health_score := 60,
        status := "active", avg_latency_ms := none,
        avg_packet_loss_percent := none, uptime_percent := 0 } := by
  simp [get_network_health, healthSnapshotOf, telemetryWindow, avgLatencyOf,
    avgPacketLossOf, uptimePercentOf, avgOpt, rawHealthScore, latencyDeduction,
    packetLossDeduction, uptimeDeduction, pyTruthy, c1Net]
  norm_num [round2]

/-- Claim C1 as amended: over a zero-reading window only the SLA endpoint
reports a distinct zero-reading state (the no-data message); the health
endpoint instead computes and returns a score, treating uptime as 0% (it
reports uptime_percent = 0 and undefined averages, and the score is 100
minus the uptime deduction at uptime 0, clamped and rounded). -/
theorem c1_theorem (net : Network) (allR : List Telemetry) (t s e : Int)
    (h1 : telemetryWindow allR net.organization t = [])
    (h2 : slaWindow allR net.organization s e = []) :
    get_network_sla_report net allR s e = .noData net.network_id ∧
    (get_network_health net allR t).2.avg_latency_ms = none ∧
    (get_network_health net allR t).2.avg_packet_loss_percent = none ∧
    (get_network_health net allR t).2.uptime_percent = 0 ∧
    (get_network_health net allR t).2.health_score =
      round2 (max 0 (100 - uptimeDeduction net.sla_uptime_target 0)) := by
  refine ⟨?_, ?_, ?_, ?_, ?_⟩
  · simp [get_network_sla_report, h2]
  · simp [get_network_health, healthSnapshotOf, h1, avgLatencyOf, avgOpt, pyTruthy]
  · simp [get_network_health, healthSnapshotOf, h1, avgPacketLossOf, avgOpt, pyTruthy]
  · simp [get_network_health, healthSnapshotOf, h1, uptimePercentOf]
    norm_num [round2]
  · simp [get_network_health, healthSnapshotOf, h1, avgLatencyOf, avgPacketLossOf,
      uptimePercentOf, avgOpt, rawHealthScore, latencyDeduction,
      packetLossDeduction, pyTruthy]

/-- Claim C1 witness: the amended statement instantiated at a concrete
network and an empty telemetry store. -/
theorem c1_witness :
    get_network_sla_report c1Net [] 0 0 = .noData c1Net.network_id ∧
    (get_network_health c1Net [] 0).2.avg_latency_ms = none ∧
    (get_network_health c1Net [] 0).2.avg_packet_loss_percent = none ∧
    (get_network_health c1Net [] 0).2.uptime_percent = 0 ∧
    (get_network_health c1Net [] 0).2.health_score =
      round2 (max 0 (100 - uptimeDeduction c1Net.sla_uptime_target 0)) :=
  c1_theorem c1Net [] 0 0 0 rfl rfl


/-- Fixture network for claim C2. -/
def c2Net : Network :=
  { network_id := "net2", organization := "OrgB", status := "active",
    health_score := 100, sla_uptime_target := 999/10, sla_latency_target := 100 }

/-- Fixture reading for claim C2: active, within the window, no latency
sample. -/
def c2Reading : Telemetry :=
  { device_id := "dev-2", organization := "OrgB", timestamp := 0,
    latency_ms := none, packet_loss_percent := none, status := "active" }

/-- The SLA report the code produces for `c2Net` over `[c2Reading]`. -/
def c2Report : SlaReport :=
  { network_id := "net2", organization := "OrgB", total_readings := 1,
    uptime_target := 999/10, latency_target_ms := 100, uptime_percent := 100,
    avg_latency_ms := none, uptime_compliance := true,
    latency_compliance := none, status := "NON_COMPLIANT" }

/-- Overall SLA status as a function of the two compliance flags: Python's
`all` over `[uptime_compliance, latency_compliance]` treats `None` like
`False`, so the status is COMPLIANT exactly when uptime compliance holds
and latency compliance is defined and true. -/
lemma sla_status_iff (b : Bool) (o : Option Bool) :
    ((if b && o.getD false then "COMPLIANT" else "NON_COMPLIANT") = "COMPLIANT") ↔
      (b = true ∧ o = some true) := by
  rcases o with _ | ob
  · cases b <;> simp
  · cases b <;> cases ob <;> simp

/-- Claim C2, counterexample: a one-reading window with no latency sample
and compliant uptime yields uptime_compliance = true, an undefined
latency_compliance, and overall status NON_COMPLIANT — the undefined flag
blocks compliance, contradicting the claim that the status would be
COMPLIANT whenever every defined flag is true. -/
theorem c2_counterexample :
    get_network_sla_report c2Net [c2Reading] 0 0 = .report c2Report ∧
    c2Report.uptime_compliance = true ∧
    c2Report.latency_compliance = none ∧
    c2Report.status = "NON_COMPLIANT" := by
  refine ⟨?_, rfl, rfl, rfl⟩
  simp [get_network_sla_report, slaWindow, c2Net, c2Reading, c2Report,
    avgOpt, pyTruthy]
  norm_num [round2]

/-- Claim C2 as amended: in every SLA report, an undefined (or false)
latency-compliance flag blocks compliance — the overall status is
COMPLIANT exactly when uptime compliance holds AND latency compliance is
defined and true; with no latency samples the status is NON_COMPLIANT even
when uptime compliance is true. -/
theorem c2_theorem (net : Network) (allR : List Telemetry) (s e : Int)
    (rep : SlaReport)
    (h : get_network_sla_report net allR s e = .report rep) :
    rep.status = "COMPLIANT" ↔
      (rep.uptime_compliance = true ∧ rep.latency_compliance = some true) := by
  unfold get_network_sla_report at h
  dsimp only at h
  split at h
  · exact absurd h (by simp)
  · simp only [SlaResult.report.injEq] at h
    subst h
    exact sla_status_iff _ _

/-- Claim C2 witness: the amended statement instantiated at the concrete
report of `c2_counterexample`: its status is NON_COMPLIANT because its
latency flag is undefined, although its uptime flag is true. -/
theorem c2_witness :
    c2Report.status = "COMPLIANT" ↔
      (c2Report.uptime_compliance = true ∧ c2Report.latency_compliance = some true) :=
  c2_theorem c2Net [c2Reading] 0 0 c2Report (by
    simp [get_network_sla_report, slaWindow, c2Net, c2Reading, c2Report,
      avgOpt, pyTruthy]
    norm_num [round2])

/-- A fixture reading for claim C3: latency 120ms, packet loss 0.5%, in
organization OrgC. -/
def c3Reading (ts : Int) (st : String) : Telemetry :=
  { device_id := "dev-3", organization := "OrgC", timestamp := ts,
    latency_ms := some 120, packet_loss_percent := some (1/2), status := st }

/-- The claim C3 window: 10 samples, 9 active and 1 offline, average
latency 120ms, average packet loss 0.5%. -/
def c3Readings : List Telemetry :=
  [c3Reading 0 "active", c3Reading 1 "active", c3Reading 2 "active",
   c3Reading 3 "active", c3Reading 4 "active", c3Reading 5 "active",
   c3Reading 6 "active", c3Reading 7 "active", c3Reading 8 "active",
   c3Reading 9 "offline"]

/-- The claim C3 network: latency target 100ms, uptime target 99.9%. -/
def c3Net : Network :=
  { network_id := "net3", organization := "OrgC", status := "active",
    health_score := 100, sla_uptime_target := 999/10, sla_latency_target := 100 }

/-- Claim C3: on the 10-reading scenario (9 active / 1 offline, avg
latency 120, avg packet loss 0.5) against targets (100ms, 99.9%) the
health computation yields uptime 90.0%, deductions 2.0 (latency),
1.5 (packet loss) and 19.8 (uptime), and final score
100 - 2 - 1.5 - 19.8 = 76.7. -/
theorem c3_theorem :
    (get_network_health c3Net c3Readings 0).2 =
      { network_id := "net3", organization := "OrgC", health_score := 767/10,
        status := "active", avg_latency_ms := some 120,
        avg_packet_loss_percent := some (1/2), uptime_percent := 90 } ∧
    latencyDeduction 100 (some 120) = 2 ∧
    packetLossDeduction (some (1/2)) = 3/2 ∧
    uptimeDeduction (999/10) 90 = 99/5 := by
  refine ⟨?_, ?_, ?_, ?_⟩
  · simp [get_network_health, healthSnapshotOf, telemetryWindow, avgLatencyOf,
      avgPacketLossOf, uptimePercentOf, avgOpt, rawHealthScore, latencyDeduction,
      packetLossDeduction, uptimeDeduction, pyTruthy, c3Net, c3Readings, c3Reading]
    norm_num [round2]
  · norm_num [latencyDeduction, pyTruthy]
  · norm_num [packetLossDeduction, pyTruthy]
  · norm_num [uptimeDeduction]

/-- Claim C4: for any window readings whose packet-loss values are
nonnegative (the ingestion schema enforces `packet_loss_percent >= 0`) and
any SLA targets, the returned health score lies in [0, 100]: the code
clamps below with `max(0, ...)` and the three deductions are nonnegative,
so the score never exceeds its 100 starting point. -/
theorem c4_theorem (net : Network) (allR : List Telemetry) (t : Int)
    (h : ∀ r ∈ allR, 0 ≤ r.packet_loss_percent.getD 0) :
    0 ≤ (get_network_health net allR t).2.health_score ∧
      (get_network_health net allR t).2.health_score ≤ 100 := by
  have hP : 0 ≤ packetLossDeduction
      (avgPacketLossOf (telemetryWindow allR net.organization t)) := by
    apply packetLossDeduction_nonneg
    intro p hp
    apply avgOpt_nonneg _ hp
    intro v hv
    obtain ⟨r, hr, hrv⟩ := List.mem_filterMap.mp hv
    have hrAll : r ∈ allR := (List.mem_filter.mp hr).1
    have := h r hrAll
    rwa [hrv, Option.getD_some] at this
  obtain ⟨hlo, hhi⟩ := rawHealthScore_bounds net.sla_latency_target
    net.sla_uptime_target
    (avgLatencyOf (telemetryWindow allR net.organization t))
    (avgPacketLossOf (telemetryWindow allR net.organization t))
    (uptimePercentOf (telemetryWindow allR net.organization t)) hP
  exact ⟨round2_nonneg hlo, round2_le_hundred hhi⟩

/-- A pathological reading for the C4 witness: latency 10,000ms, packet
loss 100%, offline, so all three deductions are at their caps. -/
def c4Reading : Telemetry :=
  { device_id := "dev-4", organization := "OrgD", timestamp := 0,
    latency_ms := some 10000, packet_loss_percent := some 100,
    status := "offline" }

/-- The claim C4 fixture network. -/
def c4Net : Network :=
  { network_id := "net4", organization := "OrgD", status := "active",
    health_score := 100, sla_uptime_target := 999/10, sla_latency_target := 100 }

/-- Claim C4 witness: the bound instantiated on the pathological window
(latency 10,000ms, packet loss 100%, uptime 0%), whose deductions sum to
more than 100. -/
theorem c4_witness :
    0 ≤ (get_network_health c4Net [c4Reading] 0).2.health_score ∧
      (get_network_health c4Net [c4Reading] 0).2.health_score ≤ 100 :=
  c4_theorem c4Net [c4Reading] 0 (by
    intro r hr
    simp only [List.mem_singleton] at hr
    subst hr
    norm_num [c4Reading])

/-- Claim C5: for a non-admin principal, organization access is granted
exactly when the principal's organization equals the resource's
organization, and `get_network` on a found network of a different
organization is a Forbidden denial (the inline cross-tenant gate),
independent of the requested action. -/
theorem c5_theorem (u : User) (org : String) (nets : List Network)
    (nid : String) (n : Network)
    (hrole : u.role ≠ "admin")
    (hfind : nets.find? (fun m => m.network_id == nid) = some n)
    (horg : n.organization ≠ u.organization) :
    check_organization_access u org = (u.organization == org) ∧
    get_network nets u nid = .error .forbidden := by
  constructor
  · simp [check_organization_access, hrole]
  · simp [get_network, hfind, hrole, horg]

/-- The claim C5 fixture principal: a customer of OrgA. -/
def c5User : User :=
  { username := "customer_user", email := "ops@customer.example.com",
    role := "customer", organization := "OrgA", disabled := false }

/-- The claim C5 fixture network, owned by OrgB. -/
def c5Net : Network :=
  { network_id := "net5", organization := "OrgB", status := "active",
    health_score := 100, sla_uptime_target := 999/10, sla_latency_target := 100 }

/-- Claim C5 witness: a non-admin OrgA customer is denied on an OrgB
resource, and its access check evaluates to the organization equality. -/
theorem c5_witness :
    check_organization_access c5User "OrgB" = (c5User.organization == "OrgB") ∧
    get_network [c5Net] c5User "net5" = .error .forbidden :=
  c5_theorem c5User "OrgB" [c5Net] "net5" c5Net (by decide) rfl (by decide)

/-- Claim C6: a single telemetry submission whose device id differs from
the API key's bound device id is rejected as Forbidden and the store is
unchanged — no hypothesis relates the organizations, so this holds in
particular when the payload's tenant matches the key's tenant. -/
theorem c6_theorem (store : List Telemetry) (key : APIKeyData) (t : Telemetry)
    (h : t.device_id ≠ key.device_id) :
    send_telemetry store key t = (store, .error .forbidden) := by
  simp [send_telemetry, h]

/-- The claim C6 fixture key, bound to device-001 of ACME. -/
def c6Key : APIKeyData :=
  { key_id := "ok_device_001_abc123xyz", device_id := "device-001",
    organization := "ACME Corporation", active := true }

/-- The claim C6 fixture submission: same tenant as the key, different
device id. -/
def c6Reading : Telemetry :=
  { device_id := "device-002", organization := "ACME Corporation",
    timestamp := 0, latency_ms := none, packet_loss_percent := none,
    status := "active" }

/-- Claim C6 witness: the mismatch rejection at a concrete submission whose
tenant matches the key's tenant. -/
theorem c6_witness :
    send_telemetry [] c6Key c6Reading = ([], .error .forbidden) :=
  c6_theorem [] c6Key c6Reading (by decide)

/-- The claim C7 fixture key. -/
def c7Key : APIKeyData :=
  { key_id := "ok_device_007", device_id := "device-007",
    organization := "OrgG", active := true }

/-- A claim C7 batch item. -/
def c7Item (d : String) : Telemetry :=
  { device_id := d, organization := "OrgG", timestamp := 0,
    latency_ms := none, packet_loss_percent := none, status := "active" }

/-- The claim C7 batch: 5 items, 2 with a mismatched device id. -/
def c7Batch : List Telemetry :=
  [c7Item "device-007", c7Item "other-1", c7Item "device-007",
   c7Item "other-2", c7Item "device-007"]

/-- Claim C7: batch submission processes records independently — the
resulting store appends exactly the device-matching records (with the
key's organization), `records_submitted` is the batch length and
`records_created` is the number of matching records; in particular the
5-item batch with 2 mismatched ids reports submitted 5, created 3. -/
theorem c7_theorem :
    (∀ (store : List Telemetry) (key : APIKeyData) (batch : List Telemetry),
      send_telemetry_batch store key batch =
        (store ++ (batch.filter (fun t => t.device_id == key.device_id)).map
            (fun t => { t with organization := key.organization }),
          batch.length,
          (batch.filter (fun t => t.device_id == key.device_id)).length)) ∧
    (send_telemetry_batch [] c7Key c7Batch).2.1 = 5 ∧
    (send_telemetry_batch [] c7Key c7Batch).2.2 = 3 := by
  refine ⟨fun store key batch => ?_, by decide, by decide⟩
  unfold send_telemetry_batch
  rw [send_telemetry_batch_loop]
  simp

/-- Claim C8: the health computation is a pure function of the window
readings and the network's record — rerunning it on the network returned
by a first run (whose stored health score was overwritten) yields the
identical snapshot, because the computation never reads the stored score. -/
theorem c8_theorem (net : Network) (allR : List Telemetry) (t : Int) :
    (get_network_health ((get_network_health net allR t).1) allR t).2 =
      (get_network_health net allR t).2 := rfl

/-- Claim C9: every record added to the store by the single or the batch
submission path carries the API key's organization — the payload's
organization field is overwritten before persisting. -/
theorem c9_theorem (key : APIKeyData) (store : List Telemetry)
    (t r : Telemetry) (batch : List Telemetry) :
    (r ∈ (send_telemetry store key t).1 → r ∉ store →
      r.organization = key.organization) ∧
    (r ∈ (send_telemetry_batch store key batch).1 → r ∉ store →
      r.organization = key.organization) := by
  constructor
  · intro hmem hnot
    unfold send_telemetry at hmem
    split at hmem
    · exact absurd hmem hnot
    · simp only [List.mem_append, List.mem_singleton] at hmem
      rcases hmem with hmem | hmem
      · exact absurd hmem hnot
      · rw [hmem]
  · intro hmem hnot
    unfold send_telemetry_batch at hmem
    rw [send_telemetry_batch_loop] at hmem
    simp only [List.mem_append, List.mem_map] at hmem
    rcases hmem with hmem | ⟨t', _, ht'⟩
    · exact absurd hmem hnot
    · rw [← ht']

/-- The claim C9 fixture key: bound to device-009, owning tenant KeyOrg. -/
def c9Key : APIKeyData :=
  { key_id := "ok_device_009", device_id := "device-009",
    organization := "KeyOrg", active := true }

/-- The claim C9 fixture payload: correct device id but a spoofed
organization field. -/
def c9Payload : Telemetry :=
  { device_id := "device-009", organization := "SpoofedOrg", timestamp := 0,
    latency_ms := none, packet_loss_percent := none, status := "active" }

/-- The record that both submission paths actually store for `c9Payload`:
the payload with its organization overwritten by the key's. -/
def c9Stored : Telemetry :=
  { device_id := "device-009", organization := "KeyOrg", timestamp := 0,
    latency_ms := none, packet_loss_percent := none, status := "active" }

/-- Claim C9 witness: the stored record of a spoofed-organization payload
carries the key's organization, on both the single and the batch path. -/
theorem c9_witness :
    c9Stored.organization = c9Key.organization ∧
    c9Stored.organization = c9Key.organization :=
  ⟨(c9_theorem c9Key [] c9Payload c9Stored [c9Payload]).1 (by decide) (by decide),
   (c9_theorem c9Key [] c9Payload c9Stored [c9Payload]).2 (by decide) (by decide)⟩

/-- Claim C10: the health computation aggregates telemetry by owning
organization only — two networks with the same organization and the same
SLA targets get identical average latency, average packet loss, uptime
percentage and health score from a health query over the same window. -/
theorem c10_theorem (n1 n2 : Network) (allR : List Telemetry) (t : Int)
    (horg : n1.organization = n2.organization)
    (hup : n1.sla_uptime_target = n2.sla_uptime_target)
    (hlat : n1.sla_latency_target = n2.sla_latency_target) :
    (get_network_health n1 allR t).2.avg_latency_ms =
      (get_network_health n2 allR t).2.avg_latency_ms ∧
    (get_network_health n1 allR t).2.avg_packet_loss_percent =
      (get_network_health n2 allR t).2.avg_packet_loss_percent ∧
    (get_network_health n1 allR t).2.uptime_percent =
      (get_network_health n2 allR t).2.uptime_percent ∧
    (get_network_health n1 allR t).2.health_score =
      (get_network_health n2 allR t).2.health_score := by
  refine ⟨?_, ?_, ?_, ?_⟩ <;> simp only [get_network_health, healthSnapshotOf]
  · rw [horg]
  · rw [horg]
  · rw [horg]
  · rw [horg, hup, hlat]

/-- Two claim C10 fixture networks of the same organization with identical
SLA targets but different ids and statuses. -/
def c10NetA : Network :=
  { network_id := "net10a", organization := "OrgJ", status := "active",
    health_score := 100, sla_uptime_target := 999/10, sla_latency_target := 100 }

/-- The second claim C10 fixture network. -/
def c10NetB : Network :=
  { network_id := "net10b", organization := "OrgJ", status := "degraded",
    health_score := 50, sla_uptime_target := 999/10, sla_latency_target := 100 }

/-- Claim C10 witness: the field equalities instantiated at the two
fixture networks. -/
theorem c10_witness :
    (get_network_health c10NetA [] 0).2.avg_latency_ms =
      (get_network_health c10NetB [] 0).2.avg_latency_ms ∧
    (get_network_health c10NetA [] 0).2.avg_packet_loss_percent =
      (get_network_health c10NetB [] 0).2.avg_packet_loss_percent ∧
    (get_network_health c10NetA [] 0).2.uptime_percent =
      (get_network_health c10NetB [] 0).2.uptime_percent ∧
    (get_network_health c10NetA [] 0).2.health_score =
      (get_network_health c10NetB [] 0).2.health_score :=
  c10_theorem c10NetA c10NetB [] 0 rfl rfl rfl

end SpaceLink
